import Mathlib

/-!
Shallow embedding of the miniseed Rust crate (src/lib.rs), a safe wrapper
over the libmseed C decoder.  Pure Rust code is translated to Lean
functions; the foreign collaborator (libmseed) is modelled as an explicit
oracle parameter; Rust panics and undefined behaviour (null-pointer
dereference) are modelled as `Option`/`none`; raw in-memory sample buffers
are modelled as total functions `Nat → Int` (an unchecked `from_raw_parts`
read always yields the requested number of elements, whatever the bytes
are); `f32`/`f64` sample values are represented by their bit patterns as
`Int`, since no claim depends on floating-point arithmetic.
-/

/-- libmseed status code MS_NOERROR (success). -/
def MS_NOERROR : Int := 0

/-- libmseed status code MS_ENDOFFILE (end of file reached). -/
def MS_ENDOFFILE : Int := 1

/-- libmseed flag MSF_UNPACKDATA (0x0001): unpack data samples on read. -/
def MSF_UNPACKDATA : Nat := 1

/-- libmseed flag MSF_VALIDATECRC (0x0004): validate CRC on read. -/
def MSF_VALIDATECRC : Nat := 4

/-- Rust `as usize` cast of an `i64` value (Rust semantics on 64-bit targets):
reduce modulo 2^64, then read as a natural number. -/
def usizeOfI64 (x : Int) : Nat := (x % (2 : Int) ^ 64).toNat

/-- Embedding of the C struct `MS3TraceSeg` (one contiguous sample run).
`starttime`/`endtime` are epoch-nanosecond `nstime_t` values, `samplecnt`
and `numsamples` are `int64_t`, `datasize` is `uint64_t`, `sampletype` is
the `char` tag byte, and `datasamples` is the raw sample buffer viewed as
memory: index `k` holds the bit pattern of the `k`-th element.  The
`samprate : f64` field is omitted: no claim mentions it.  The `next`
pointer of the C struct is represented by chaining segments in a `List`
at the owner (`MS3TraceIDv.first`). -/
structure MS3TraceSeg where
  starttime : Int
  endtime : Int
  samplecnt : Int
  numsamples : Int
  datasize : Nat
  sampletype : Int
  datasamples : Nat → Int

/-- The Rust enum `MSSampleType`. -/
inductive MSSampleType
  | Integer32
  | Float32
  | Float64
deriving DecidableEq

/-- Rust `MSSampleType::as_char`: the `i8` tag byte for each sample type
(`'i'` = 105, `'f'` = 102, `'d'` = 100). -/
def MSSampleType.as_char : MSSampleType → Int
  | MSSampleType.Integer32 => 105
  | MSSampleType.Float32 => 102
  | MSSampleType.Float64 => 100

/-- Rust `MSTraceSegment::sampletype`: decode the tag byte.  The Rust source
panics on any other value; the panic is modelled as `none`. -/
def MSTraceSegment.sampletype (s : MS3TraceSeg) : Option MSSampleType :=
  if s.sampletype = 105 then some MSSampleType.Integer32 -- i
  else if s.sampletype = 102 then some MSSampleType.Float32 -- f
  else if s.sampletype = 100 then some MSSampleType.Float64 -- d
  else none

/-- Rust `MSTraceSegment::data_unpacked`:
`self.samplecnt() == self.numsamples() && self.datasize() > 0`. -/
def MSTraceSegment.data_unpacked (s : MS3TraceSeg) : Bool :=
  s.samplecnt == s.numsamples && s.datasize > 0

/-- The foreign call `mstl3_convertsamples(seg, type, truncate)`: takes the
segment, the target-type tag byte and the truncate flag, returns the status
code and the (in-place mutated) segment. -/
def ConvertOracle : Type :=
  MS3TraceSeg → Int → Int → Int × MS3TraceSeg

/-- Rust `MSTraceSegment::convert_data`: no-op `true` when data is not unpacked
or the native type already matches; otherwise one collaborator call with
`truncate = 0`, reporting `status == 0` as the `Bool` result.  The panic
inside `sampletype()` on an unknown tag propagates as `none`. -/
def MSTraceSegment.convert_data (co : ConvertOracle) (s : MS3TraceSeg)
    (t : MSSampleType) : Option (Bool × MS3TraceSeg) :=
  if !(MSTraceSegment.data_unpacked s) then some (false, s)
  else
    let truncate : Int := 0
    match MSTraceSegment.sampletype s with
    | none => none
    | some st =>
      if t ≠ st then
        let r := co s (MSSampleType.as_char t) truncate
        some (r.1 == 0, r.2)
      else some (true, s)

/-- Rust `from_raw_parts(s.datasamples as *mut T, n).to_vec()`: read `n`
elements from the raw buffer. -/
def readSamples (s : MS3TraceSeg) (n : Nat) : List Int :=
  (List.range n).map s.datasamples

/-- Rust `MSTraceSegment::to_vec_i32`: empty vector when data is not unpacked;
otherwise request conversion to `Integer32` (the returned `Bool` is
discarded by the Rust source), re-read the segment struct and copy
`samplecnt as usize` elements out of the raw buffer.  `none` models the
panic escaping from `convert_data`. -/
def MSTraceSegment.to_vec_i32 (co : ConvertOracle) (s : MS3TraceSeg) :
    Option (List Int) :=
  if !(MSTraceSegment.data_unpacked s) then some []
  else
    match MSTraceSegment.convert_data co s MSSampleType.Integer32 with
    | none => none
    | some r => some (readSamples r.2 (usizeOfI64 r.2.samplecnt))

/-- Rust `MSTraceSegment::to_vec_f32`, same shape as `to_vec_i32`. -/
def MSTraceSegment.to_vec_f32 (co : ConvertOracle) (s : MS3TraceSeg) :
    Option (List Int) :=
  if !(MSTraceSegment.data_unpacked s) then some []
  else
    match MSTraceSegment.convert_data co s MSSampleType.Float32 with
    | none => none
    | some r => some (readSamples r.2 (usizeOfI64 r.2.samplecnt))

/-- Rust `MSTraceSegment::to_vec_f64`, same shape as `to_vec_i32`. -/
def MSTraceSegment.to_vec_f64 (co : ConvertOracle) (s : MS3TraceSeg) :
    Option (List Int) :=
  if !(MSTraceSegment.data_unpacked s) then some []
  else
    match MSTraceSegment.convert_data co s MSSampleType.Float64 with
    | none => none
    | some r => some (readSamples r.2 (usizeOfI64 r.2.samplecnt))


/-- Identity-success conversion oracle: reports status 0 and leaves the
segment unchanged (used for concrete witnesses). -/
def coID : ConvertOracle := fun s2 _ _ => (0, s2)

/-- Failing conversion oracle: reports status -1 (conversion refused, e.g.
it would lose precision) and leaves the segment unchanged. -/
def coFail : ConvertOracle := fun s2 _ _ => (-1, s2)

/-- A concrete unpacked segment with native type `'f'` (102) holding two
samples whose bit patterns read back as 7. -/
def segF : MS3TraceSeg :=
  { starttime := 0, endtime := 0, samplecnt := 2, numsamples := 2,
    datasize := 8, sampletype := 102, datasamples := fun _ => 7 }

/-- A concrete unpacked segment with native type `'i'` (105). -/
def segW : MS3TraceSeg :=
  { starttime := 0, endtime := 0, samplecnt := 2, numsamples := 2,
    datasize := 8, sampletype := 105, datasamples := fun _ => 0 }

/-- A concrete unpacked segment with an unknown sample-type tag 0. -/
def segU : MS3TraceSeg :=
  { starttime := 0, endtime := 0, samplecnt := 1, numsamples := 1,
    datasize := 4, sampletype := 0, datasamples := fun _ => 0 }

/-- Embedding of the C struct `MS3Record` (fields the wrapper reads).
`sid` is the fixed-width `char[64]` source-identifier field, kept as the
list of its `i8` byte values. -/
structure MS3Record where
  sid : List Int
  starttime : Int
  numsamples : Int
  samplecnt : Int
  reclen : Int
  pubversion : Nat

/-- The Rust enum `MSError`. -/
inductive MSError
  | EOF
  | Error (msg : String)
deriving DecidableEq

/-- The Rust struct `MSFileParam` (its pure configuration state; the
opaque `msfp` decoder handle and the cursor `fpos`/`last` cells mutated by
the foreign call are modelled by the call-counter threaded through
`read_record`). -/
structure MSFileParam where
  path : String
  mspath : String
  fpos : Int
  last : Int
  verbose : Int
  flags : Nat

/-- Rust `MSFileParam::new`: defaults — `flags = MSF_UNPACKDATA`,
`verbose = 0`, cursor fields zeroed. -/
def MSFileParam.new (file : String) : MSFileParam :=
  { path := file, mspath := file, fpos := 0, last := 0,
    flags := MSF_UNPACKDATA, verbose := 0 }

/-- Rust `MSFileParam::unpack_data`: set or clear the MSF_UNPACKDATA bit
(`|=` / `&= !` on the `u32` flag word). -/
def MSFileParam.unpack_data (s : MSFileParam) (unpack : Bool) : MSFileParam :=
  if unpack then { s with flags := s.flags ||| MSF_UNPACKDATA }
  else { s with flags := s.flags &&& (4294967295 ^^^ MSF_UNPACKDATA) }

/-- Rust `MSFileParam::validate_crc`: set or clear the MSF_VALIDATECRC bit. -/
def MSFileParam.validate_crc (s : MSFileParam) (validate : Bool) : MSFileParam :=
  if validate then { s with flags := s.flags ||| MSF_VALIDATECRC }
  else { s with flags := s.flags &&& (4294967295 ^^^ MSF_VALIDATECRC) }

/-- The foreign call `ms3_readmsr_r`: invocation number `n` of the
collaborator on one reader returns a status code and (on success) the
decoded record the handle now points at. -/
def ReadOracle : Type := Nat → Int × MS3Record

/-- Rust `MSFileParam::read_record`: one collaborator call (the cursor `n`
counts calls made on this reader, so `n + 1` in the result records that
exactly one call happened); status `MS_NOERROR` gives `Ok(record)`,
`MS_ENDOFFILE` gives `Err(EOF)`, anything else gives
`Err(Error("Error: {rv}"))`. -/
def MSFileParam.read_record (oracle : ReadOracle) (n : Nat) :
    Except MSError MS3Record × Nat :=
  let rv := (oracle n).1
  let msr := (oracle n).2
  (if rv = MS_NOERROR then Except.ok msr
   else if rv = MS_ENDOFFILE then Except.error MSError.EOF
   else Except.error (MSError.Error ("Error: " ++ toString rv)), n + 1)

/-- Rust `<MSFileParam as Iterator>::next`: `Ok` becomes `Some(Ok)`, `EOF`
becomes `None`, any other error becomes `Some(Err)`.  No state other than
the cursor is updated: nothing marks the iterator finished after an
error. -/
def MSFileParam.next (oracle : ReadOracle) (n : Nat) :
    Option (Except MSError MS3Record) × Nat :=
  match MSFileParam.read_record oracle n with
  | (Except.ok x, n2) => (some (Except.ok x), n2)
  | (Except.error MSError.EOF, n2) => (none, n2)
  | (Except.error e, n2) => (some (Except.error e), n2)

/-- A concrete decoded record whose `sid` field holds bytes 88, 0, 89
(`'X'`, NUL, `'Y'`). -/
def recW : MS3Record :=
  { sid := [88, 0, 89], starttime := 0, numsamples := 0, samplecnt := 0,
    reclen := 512, pubversion := 1 }

/-- Oracle whose first call reports a decode error (-1) and whose later
calls succeed. -/
def roC2 : ReadOracle := fun n => if n = 0 then (-1, recW) else (0, recW)

/-- Oracle whose first call succeeds and whose later calls report end of
file. -/
def roW : ReadOracle := fun n => if n = 0 then (0, recW) else (1, recW)

/-- Embedding of the C struct `MS3TraceID` (one channel).  The `next`
pointer chain of trace IDs is represented by the owner holding a `List`;
`first` is the head of the null-terminated segment chain, likewise a
`List`. -/
structure MS3TraceID where
  sid : List Int
  earliest : Int
  latest : Int
  pubversion : Nat
  numsegments : Nat
  first : List MS3TraceSeg

/-- Embedding of the C struct `MS3TraceList`: channel count plus the head
of the null-terminated trace-ID chain, as a `List`. -/
structure MS3TraceList where
  numtraces : Nat
  traces : List MS3TraceID

/-- The Rust struct `MSTraceList`: the `mstl` raw pointer is `none` when
null (as left by `new`) and `some` after a successful load. -/
structure MSTraceList where
  mstl : Option MS3TraceList
  path : String

/-- Rust `MSTraceList::new`: stores the path and a null `mstl` pointer. -/
def MSTraceList.new (file : String) : MSTraceList :=
  { mstl := none, path := file }

/-- Rust `MSTraceList::read`: one `ms3_readtracelist` collaborator call
(status and resulting list), then `assert_eq!(rv, MS_NOERROR)`; the assert
failure (panic) is modelled as `none`. -/
def MSTraceList.read (oracle : Int × MS3TraceList) (s : MSTraceList) :
    Option MSTraceList :=
  if oracle.1 = MS_NOERROR then some { s with mstl := some oracle.2 }
  else none

/-- Rust `MSTraceList::ptr`, i.e. `unsafe { *self.mstl }`: an UNCHECKED
dereference of the raw pointer.  `none` here models the null-pointer
dereference (undefined behaviour), not a checked error path: the Rust
source performs no null test. -/
def MSTraceList.ptr (s : MSTraceList) : Option MS3TraceList := s.mstl

/-- Rust `MSTraceList::numtraces`: reads through `ptr()` with no guard. -/
def MSTraceList.numtraces (s : MSTraceList) : Option Nat :=
  (MSTraceList.ptr s).map MS3TraceList.numtraces

/-- The Rust struct `MSTraceIDIterator`: cursor into the trace-ID chain
(the remaining chain suffix; `[]` is the null pointer). -/
structure MSTraceIDIterator where
  mstid : List MS3TraceID

/-- The Rust struct `MSTraceSegmentIterator`: cursor into the segment
chain. -/
structure MSTraceSegmentIterator where
  mstseg : List MS3TraceSeg

/-- Rust `MSTraceList::traces`: builds a FRESH iterator positioned at
`ptr().traces`, the head of the chain (again reading through the
unchecked `ptr()`). -/
def MSTraceList.traces (s : MSTraceList) : Option MSTraceIDIterator :=
  (MSTraceList.ptr s).map (fun t => { mstid := t.traces })

/-- Rust `MSTraceID::segments`: a fresh iterator positioned at `ptr().first`,
the head of this channel's segment chain. -/
def MSTraceID.segments (tid : MS3TraceID) : MSTraceSegmentIterator :=
  { mstseg := tid.first }

/-- Rust `<MSTraceIDIterator as Iterator>::next`: `None` at the null pointer,
otherwise yield the current node and advance to its `next` pointer. -/
def MSTraceIDIterator.next (it : MSTraceIDIterator) :
    Option (MS3TraceID × MSTraceIDIterator) :=
  match it.mstid with
  | [] => none
  | p :: rest => some (p, { mstid := rest })

/-- Rust `<MSTraceSegmentIterator as Iterator>::next`, same shape. -/
def MSTraceSegmentIterator.next (it : MSTraceSegmentIterator) :
    Option (MS3TraceSeg × MSTraceSegmentIterator) :=
  match it.mstseg with
  | [] => none
  | p :: rest => some (p, { mstseg := rest })

/-- Exhaust a trace-ID iterator, collecting the items it yields in
order. -/
def MSTraceIDIterator.run : MSTraceIDIterator → List MS3TraceID
  | { mstid := [] } => []
  | { mstid := p :: rest } => p :: MSTraceIDIterator.run { mstid := rest }

/-- Exhaust a segment iterator, collecting the items it yields in
order. -/
def MSTraceSegmentIterator.run : MSTraceSegmentIterator → List MS3TraceSeg
  | { mstseg := [] } => []
  | { mstseg := p :: rest } => p :: MSTraceSegmentIterator.run { mstseg := rest }

/-- A concrete channel owning one segment. -/
def tidW : MS3TraceID :=
  { sid := [88, 0, 89], earliest := 0, latest := 0, pubversion := 1,
    numsegments := 1, first := [segW] }

/-- A concrete loaded trace list with one channel. -/
def tlW : MS3TraceList := { numtraces := 1, traces := [tidW] }

/-- A concrete archive wrapper after a successful load. -/
def mslW : MSTraceList := { mstl := some tlW, path := "multiple.seed" }

/-- Rust `x as u8` on an `i8` value: two's-complement reduction modulo
256. -/
def u8OfI8 (x : Int) : Nat := (x % 256).toNat

/-- UTF-8 continuation byte: `0x80 ≤ b ≤ 0xBF`. -/
def utf8Cont (b : Nat) : Bool := 128 ≤ b && b ≤ 191

/-- Embedding of the UTF-8 validation performed by Rust
`String::from_utf8` (core::str byte-table validation, RFC 3629): ASCII,
2/3/4-byte sequences with the restricted second-byte ranges that exclude
overlong forms, surrogates and code points above U+10FFFF. -/
def utf8Valid : List Nat → Bool
  | [] => true
  | b0 :: r =>
    if b0 ≤ 127 then utf8Valid r
    else if 194 ≤ b0 && b0 ≤ 223 then
      match r with
      | b1 :: r2 => utf8Cont b1 && utf8Valid r2
      | [] => false
    else if b0 = 224 then
      match r with
      | b1 :: b2 :: r2 =>
        (160 ≤ b1 && b1 ≤ 191) && utf8Cont b2 && utf8Valid r2
      | _ => false
    else if 225 ≤ b0 && b0 ≤ 236 then
      match r with
      | b1 :: b2 :: r2 => utf8Cont b1 && utf8Cont b2 && utf8Valid r2
      | _ => false
    else if b0 = 237 then
      match r with
      | b1 :: b2 :: r2 =>
        (128 ≤ b1 && b1 ≤ 159) && utf8Cont b2 && utf8Valid r2
      | _ => false
    else if 238 ≤ b0 && b0 ≤ 239 then
      match r with
      | b1 :: b2 :: r2 => utf8Cont b1 && utf8Cont b2 && utf8Valid r2
      | _ => false
    else if b0 = 240 then
      match r with
      | b1 :: b2 :: b3 :: r2 =>
        (144 ≤ b1 && b1 ≤ 191) && utf8Cont b2 && utf8Cont b3 && utf8Valid r2
      | _ => false
    else if 241 ≤ b0 && b0 ≤ 243 then
      match r with
      | b1 :: b2 :: b3 :: r2 =>
        utf8Cont b1 && utf8Cont b2 && utf8Cont b3 && utf8Valid r2
      | _ => false
    else if b0 = 244 then
      match r with
      | b1 :: b2 :: b3 :: r2 =>
        (128 ≤ b1 && b1 ≤ 143) && utf8Cont b2 && utf8Cont b3 && utf8Valid r2
      | _ => false
    else false

/-- Rust `i8_to_string`: cast each `i8` to `u8`, drop every zero byte, then
`String::from_utf8(v).unwrap()`.  A Rust `String` is represented by its
UTF-8 byte sequence, so the successful conversion is the byte list itself;
the `unwrap` panic on invalid UTF-8 is `none`. -/
def i8_to_string (vin : List Int) : Option (List Nat) :=
  let v := (vin.map u8OfI8).filter (fun x => x != 0)
  if utf8Valid v then some v else none

/-- Rust `MSRecord::sid`: `i8_to_string(&self.ptr().sid)`. -/
def MSRecord.sid (m : MS3Record) : Option (List Nat) :=
  i8_to_string m.sid


/-- C5: `data_unpacked()` returns true iff the declared sample count equals
the actually-unpacked sample count and the payload size is positive. -/
theorem C5_data_unpacked (s : MS3TraceSeg) :
    MSTraceSegment.data_unpacked s = true ↔
      (s.samplecnt = s.numsamples ∧ 0 < s.datasize) := by
  simp [MSTraceSegment.data_unpacked]

theorem usizeOfI64_eq_toNat (x : Int) (h0 : 0 ≤ x) (h1 : x < 2 ^ 64) :
    usizeOfI64 x = x.toNat := by
  unfold usizeOfI64
  rw [Int.emod_eq_of_lt h0 h1]

theorem convert_data_of_unpacked (co : ConvertOracle) (s : MS3TraceSeg)
    (st : MSSampleType) (t : MSSampleType)
    (hco : ∀ s2 c tr, ((co s2 c tr).2).samplecnt = s2.samplecnt)
    (hst : MSTraceSegment.sampletype s = some st)
    (hu : MSTraceSegment.data_unpacked s = true) :
    ∃ r, MSTraceSegment.convert_data co s t = some r ∧
      r.2.samplecnt = s.samplecnt := by
  unfold MSTraceSegment.convert_data
  rw [hu, hst]
  by_cases h : t = st
  · simp [h]
  · simp [h, hco]

/-- C1: the Rust source requests the conversion with `truncate = 0` and
`convert_data` reports a nonzero collaborator status as `false`, but
`to_vec_i32` discards that `Bool`: with a collaborator that refuses the
conversion (status -1), the accessor still returns the (unconverted)
samples instead of failing. -/
theorem C1_conversion_failure_ignored :
    MSTraceSegment.convert_data coFail segF MSSampleType.Integer32 =
      some (false, segF) ∧
    MSTraceSegment.to_vec_i32 coFail segF = some [7, 7] := by
  constructor <;> rfl

/-- C4: each typed accessor returns an empty vector when `data_unpacked()`
is false, and a vector of length equal to the declared sample count when it
is true, for any segment with a valid sample-type tag and any conversion
collaborator that preserves the sample count (the in-place elementwise
conversion of §6), with `samplecnt` in the `i64` range. -/
theorem C4_typed_accessors (co : ConvertOracle) (s : MS3TraceSeg)
    (hco : ∀ s2 c tr, ((co s2 c tr).2).samplecnt = s2.samplecnt)
    (htag : MSTraceSegment.sampletype s ≠ none)
    (h0 : 0 ≤ s.samplecnt) (h1 : s.samplecnt < 2 ^ 63) :
    (MSTraceSegment.data_unpacked s = false →
      MSTraceSegment.to_vec_i32 co s = some [] ∧
      MSTraceSegment.to_vec_f32 co s = some [] ∧
      MSTraceSegment.to_vec_f64 co s = some []) ∧
    (MSTraceSegment.data_unpacked s = true →
      (∃ v, MSTraceSegment.to_vec_i32 co s = some v ∧
        v.length = s.samplecnt.toNat) ∧
      (∃ v, MSTraceSegment.to_vec_f32 co s = some v ∧
        v.length = s.samplecnt.toNat) ∧
      (∃ v, MSTraceSegment.to_vec_f64 co s = some v ∧
        v.length = s.samplecnt.toNat)) := by
  obtain ⟨st, hst⟩ := Option.ne_none_iff_exists.mp htag
  have h64 : s.samplecnt < 2 ^ 64 := lt_trans h1 (by norm_num)
  constructor
  · intro hu
    refine ⟨?_, ?_, ?_⟩ <;>
      simp [MSTraceSegment.to_vec_i32, MSTraceSegment.to_vec_f32,
        MSTraceSegment.to_vec_f64, hu]
  · intro hu
    refine ⟨?_, ?_, ?_⟩
    · obtain ⟨r, hr, hcnt⟩ := convert_data_of_unpacked co s st
        MSSampleType.Integer32 hco hst.symm hu
      refine ⟨readSamples r.2 (usizeOfI64 r.2.samplecnt), ?_, ?_⟩
      · simp [MSTraceSegment.to_vec_i32, hu, hr]
      · simp [readSamples, hcnt, usizeOfI64_eq_toNat s.samplecnt h0 h64]
    · obtain ⟨r, hr, hcnt⟩ := convert_data_of_unpacked co s st
        MSSampleType.Float32 hco hst.symm hu
      refine ⟨readSamples r.2 (usizeOfI64 r.2.samplecnt), ?_, ?_⟩
      · simp [MSTraceSegment.to_vec_f32, hu, hr]
      · simp [readSamples, hcnt, usizeOfI64_eq_toNat s.samplecnt h0 h64]
    · obtain ⟨r, hr, hcnt⟩ := convert_data_of_unpacked co s st
        MSSampleType.Float64 hco hst.symm hu
      refine ⟨readSamples r.2 (usizeOfI64 r.2.samplecnt), ?_, ?_⟩
      · simp [MSTraceSegment.to_vec_f64, hu, hr]
      · simp [readSamples, hcnt, usizeOfI64_eq_toNat s.samplecnt h0 h64]

theorem C4_witness :
    (MSTraceSegment.data_unpacked segW = true) ∧
    (∃ v, MSTraceSegment.to_vec_i32 coID segW = some v ∧
      v.length = segW.samplecnt.toNat) :=
  ⟨by decide,
   ((C4_typed_accessors coID segW (fun _ _ _ => rfl)
      (by simp [MSTraceSegment.sampletype, segW])
      (by decide) (by decide)).2 (by decide)).1⟩

/-- C7: the sample-type tag mapping is exactly
{Integer32 ↔ 105 `'i'`, Float32 ↔ 102 `'f'`, Float64 ↔ 100 `'d'`}, and on
any other tag byte `sampletype()` panics (`none`), so no typed accessor
can return sample data for such a segment once it reaches the decode. -/
theorem C7_sample_type_tags (s : MS3TraceSeg) (co : ConvertOracle) :
    (MSSampleType.as_char MSSampleType.Integer32 = 105 ∧
     MSSampleType.as_char MSSampleType.Float32 = 102 ∧
     MSSampleType.as_char MSSampleType.Float64 = 100) ∧
    (s.sampletype = 105 →
      MSTraceSegment.sampletype s = some MSSampleType.Integer32) ∧
    (s.sampletype = 102 →
      MSTraceSegment.sampletype s = some MSSampleType.Float32) ∧
    (s.sampletype = 100 →
      MSTraceSegment.sampletype s = some MSSampleType.Float64) ∧
    (s.sampletype ≠ 105 → s.sampletype ≠ 102 → s.sampletype ≠ 100 →
      MSTraceSegment.sampletype s = none ∧
      (MSTraceSegment.data_unpacked s = true →
        MSTraceSegment.to_vec_i32 co s = none ∧
        MSTraceSegment.to_vec_f32 co s = none ∧
        MSTraceSegment.to_vec_f64 co s = none)) := by
  refine ⟨⟨rfl, rfl, rfl⟩, ?_, ?_, ?_, ?_⟩
  · intro h; simp [MSTraceSegment.sampletype, h]
  · intro h; simp [MSTraceSegment.sampletype, h]
  · intro h; simp [MSTraceSegment.sampletype, h]
  · intro h1 h2 h3
    have hn : MSTraceSegment.sampletype s = none := by
      simp [MSTraceSegment.sampletype, h1, h2, h3]
    refine ⟨hn, fun hu => ⟨?_, ?_, ?_⟩⟩ <;>
      simp [MSTraceSegment.to_vec_i32, MSTraceSegment.to_vec_f32,
        MSTraceSegment.to_vec_f64, MSTraceSegment.convert_data, hu, hn]

theorem C7_witness :
    MSTraceSegment.sampletype segU = none ∧
    (MSTraceSegment.to_vec_i32 coID segU = none ∧
     MSTraceSegment.to_vec_f32 coID segU = none ∧
     MSTraceSegment.to_vec_f64 coID segU = none) :=
  ⟨((C7_sample_type_tags segU coID).2.2.2.2
      (by decide) (by decide) (by decide)).1,
   ((C7_sample_type_tags segU coID).2.2.2.2
      (by decide) (by decide) (by decide)).2 (by decide)⟩

/-- C9: a newly constructed reader has exactly the default configuration:
the unpack-on-read flag set, the CRC-validation flag clear, verbosity
zero. -/
theorem C9_new_defaults (p : String) :
    (MSFileParam.new p).flags = MSF_UNPACKDATA ∧
    (MSFileParam.new p).flags &&& MSF_UNPACKDATA = MSF_UNPACKDATA ∧
    (MSFileParam.new p).flags &&& MSF_VALIDATECRC = 0 ∧
    (MSFileParam.new p).verbose = 0 :=
  ⟨rfl,
   by have h : MSF_UNPACKDATA &&& MSF_UNPACKDATA = MSF_UNPACKDATA := by decide
      exact h,
   by have h : MSF_UNPACKDATA &&& MSF_VALIDATECRC = 0 := by decide
      exact h,
   rfl⟩

/-- C6: one `read_record` makes exactly one collaborator call (cursor
advances by one, never two) and maps its status exactly: `MS_NOERROR` to
`Ok(record)`, `MS_ENDOFFILE` to `Err(EOF)`, any other status to
`Err(Error)` carrying the raw status code. -/
theorem C6_read_record_status_map (oracle : ReadOracle) (n : Nat) :
    (MSFileParam.read_record oracle n).2 = n + 1 ∧
    ((oracle n).1 = MS_NOERROR →
      (MSFileParam.read_record oracle n).1 = Except.ok (oracle n).2) ∧
    ((oracle n).1 = MS_ENDOFFILE →
      (MSFileParam.read_record oracle n).1 = Except.error MSError.EOF) ∧
    ((oracle n).1 ≠ MS_NOERROR → (oracle n).1 ≠ MS_ENDOFFILE →
      (MSFileParam.read_record oracle n).1 =
        Except.error (MSError.Error ("Error: " ++ toString (oracle n).1))) := by
  refine ⟨rfl, ?_, ?_, ?_⟩
  · intro h; simp [MSFileParam.read_record, h]
  · intro h; simp [MSFileParam.read_record, h, MS_NOERROR, MS_ENDOFFILE]
  · intro h1 h2; simp [MSFileParam.read_record, h1, h2]

theorem C6_witness :
    (MSFileParam.read_record roW 0).2 = 0 + 1 ∧
    (MSFileParam.read_record roW 0).1 = Except.ok (roW 0).2 :=
  ⟨(C6_read_record_status_map roW 0).1,
   (C6_read_record_status_map roW 0).2.1 rfl⟩

/-- C2 counterexample: with a collaborator whose first call reports a
decode error and whose second call succeeds, the iterator produces an
error item and then a further (successful) item: an error item is not
always the last item. -/
theorem C2_counterexample :
    (MSFileParam.next roC2 0).1 =
      some (Except.error (MSError.Error "Error: -1")) ∧
    (MSFileParam.next roC2 0).2 = 1 ∧
    (MSFileParam.next roC2 1).1 = some (Except.ok recW) :=
  ⟨rfl, rfl, rfl⟩

/-- C2 amended: the iterator ends (returns `None`) exactly when the
current collaborator status is `MS_ENDOFFILE`; a decode error is produced
as an item but nothing fuses the iterator, whose cursor always advances,
so subsequent calls read again and may produce further items. -/
theorem C2_amended_end_only_on_eof (oracle : ReadOracle) (n : Nat) :
    ((MSFileParam.next oracle n).1 = none ↔ (oracle n).1 = MS_ENDOFFILE) ∧
    (MSFileParam.next oracle n).2 = n + 1 := by
  by_cases h0 : (oracle n).1 = MS_NOERROR
  · simp [MSFileParam.next, MSFileParam.read_record, h0, MS_NOERROR,
      MS_ENDOFFILE]
  · by_cases h1 : (oracle n).1 = MS_ENDOFFILE
    · simp [MSFileParam.next, MSFileParam.read_record, h0, h1, MS_NOERROR,
        MS_ENDOFFILE]
    · simp [MSFileParam.next, MSFileParam.read_record, h0, h1]

/-- C3: `new` leaves the `mstl` handle null, and `numtraces()`/`traces()`
called before a successful load go straight through the unchecked
`ptr()` dereference of that null handle (`none` = undefined behaviour);
no InvariantViolation guard exists in the source. -/
theorem C3_accessor_before_load_reads_null (p : String) :
    MSTraceList.ptr (MSTraceList.new p) = none ∧
    MSTraceList.numtraces (MSTraceList.new p) = none ∧
    MSTraceList.traces (MSTraceList.new p) = none :=
  ⟨rfl, rfl, rfl⟩

theorem traceIDIterRun_eq (l : List MS3TraceID) :
    MSTraceIDIterator.run { mstid := l } = l := by
  induction l with
  | nil => simp [MSTraceIDIterator.run]
  | cons p rest ih => simp [MSTraceIDIterator.run, ih]

theorem traceSegIterRun_eq (l : List MS3TraceSeg) :
    MSTraceSegmentIterator.run { mstseg := l } = l := by
  induction l with
  | nil => simp [MSTraceSegmentIterator.run]
  | cons p rest ih => simp [MSTraceSegmentIterator.run, ih]

/-- C8: on a successfully loaded archive, every call to `traces()` yields
a fresh iterator positioned at the chain head whose full traversal is the
whole channel chain in order, so two successive calls on the same
unmodified owner enumerate the same sequence; likewise `segments()` for
every channel. -/
theorem C8_restartable_traversal (s : MSTraceList) (t : MS3TraceList)
    (h : MSTraceList.ptr s = some t) (tid : MS3TraceID) :
    MSTraceList.traces s = some { mstid := t.traces } ∧
    MSTraceIDIterator.run { mstid := t.traces } = t.traces ∧
    (∀ it1 it2, MSTraceList.traces s = some it1 →
      MSTraceList.traces s = some it2 →
      MSTraceIDIterator.run it1 = MSTraceIDIterator.run it2) ∧
    MSTraceID.segments tid = { mstseg := tid.first } ∧
    MSTraceSegmentIterator.run (MSTraceID.segments tid) = tid.first := by
  refine ⟨?_, traceIDIterRun_eq t.traces, ?_, rfl,
    traceSegIterRun_eq tid.first⟩
  · simp [MSTraceList.traces, h]
  · intro it1 it2 h1 h2
    rw [h1] at h2
    exact congrArg MSTraceIDIterator.run (Option.some.inj h2)

theorem C8_witness :
    MSTraceList.traces mslW = some { mstid := tlW.traces } ∧
    MSTraceIDIterator.run { mstid := tlW.traces } = tlW.traces :=
  ⟨(C8_restartable_traversal mslW tlW rfl tidW).1,
   (C8_restartable_traversal mslW tlW rfl tidW).2.1⟩

/-- C10: whenever `sid()` returns a string, its bytes are exactly the
record's `sid` field bytes with every zero byte removed wherever it
occurs, in their original order (an order-preserving subsequence keeping
every nonzero byte); and `sid()` aborts (the `unwrap` panic, `none`)
exactly when those remaining bytes are not valid UTF-8. -/
theorem C10_sid_strips_zero_bytes (m : MS3Record) :
    (∀ s, MSRecord.sid m = some s →
      s = (m.sid.map u8OfI8).filter (fun x => x != 0) ∧
      (∀ b ∈ s, b ≠ 0) ∧
      List.Sublist s (m.sid.map u8OfI8) ∧
      (∀ b ∈ m.sid.map u8OfI8, b ≠ 0 → b ∈ s)) ∧
    (MSRecord.sid m = none ↔
      utf8Valid ((m.sid.map u8OfI8).filter (fun x => x != 0)) = false) := by
  constructor
  · intro s hs
    simp only [MSRecord.sid, i8_to_string] at hs
    by_cases h : utf8Valid ((m.sid.map u8OfI8).filter (fun x => x != 0))
    · rw [if_pos h] at hs
      have hv : s = (m.sid.map u8OfI8).filter (fun x => x != 0) :=
        (Option.some.inj hs).symm
      subst hv
      refine ⟨rfl, ?_, List.filter_sublist _, ?_⟩
      · intro b hb
        have := List.of_mem_filter hb
        simpa using this
      · intro b hb hbne
        exact List.mem_filter.mpr ⟨hb, by simpa using hbne⟩
    · rw [if_neg h] at hs
      exact absurd hs (by simp)
  · by_cases h : utf8Valid ((m.sid.map u8OfI8).filter (fun x => x != 0))
    · simp [MSRecord.sid, i8_to_string, h]
    · simp [MSRecord.sid, i8_to_string, h]

theorem C10_witness :
    [(88 : Nat), 89] = ((recW.sid.map u8OfI8).filter (fun x => x != 0)) ∧
    (∀ b ∈ [(88 : Nat), 89], b ≠ 0) ∧
    List.Sublist [(88 : Nat), 89] (recW.sid.map u8OfI8) ∧
    (∀ b ∈ recW.sid.map u8OfI8, b ≠ 0 → b ∈ [(88 : Nat), 89]) :=
  (C10_sid_strips_zero_bytes recW).1 [88, 89] rfl
